import Mathlib

/-!
Shallow embedding of the realtime voice-conversation gateway
(`unmute/llm/chatbot.py`, `unmute/llm/llm_utils.py`, `unmute/llm/tool_executor.py`,
`unmute/main_websocket.py`) and proofs about its specified behaviour.

Python strings are modelled by `String`; where evaluation by the kernel matters,
character-level operations go through `String.data` (the underlying `List Char`),
which agrees with Python's per-character indexing for the ASCII data used here.
-/

namespace AudioGame

/-- A chat message, embedding the `{"role": ..., "content": ...}` dicts used by
`unmute/llm/chatbot.py` and `unmute/llm/llm_utils.py`. -/
structure Msg where
  role : String
  content : String
deriving DecidableEq, Repr

/-- Python slice `xs[i:]` with Python's negative-index semantics: a negative `i`
counts from the end of the list and is clamped at 0. -/
def pyDropFrom (xs : List α) (i : Int) : List α :=
  if i < 0 then xs.drop ((xs.length : Int) + i).toNat else xs.drop i.toNat

/-- `MAX_MESSAGES_PER_CHARACTER` from `chatbot.py` (line 16). -/
def MAX_MESSAGES_PER_CHARACTER : Nat := 100

/-- `CharacterHistory.truncate_if_needed` (`chatbot.py` lines 66-85).
Returns the new message list and the number of messages removed.
The Python body is
`self.messages = [self.messages[0]] + self.messages[-max_messages + 1:]`,
embedded here with Python slice semantics (`pyDropFrom`). -/
def truncate_if_needed (messages : List Msg) (maxMessages : Nat) : List Msg × Nat :=
  if messages.length ≤ maxMessages then (messages, 0)
  else
    (messages.take 1 ++ pyDropFrom messages (-(maxMessages : Int) + 1),
     messages.length - maxMessages)

/-- `ConversationState` (`chatbot.py` line 13). -/
inductive ConversationState
  | waiting_for_user
  | user_speaking
  | bot_speaking
deriving DecidableEq, Repr

/-- Embeds Python `s.strip() == ""`: a string is blank iff every character is
whitespace. -/
def isBlank (s : String) : Bool := s.data.all Char.isWhitespace

/-- `Chatbot.conversation_state` (`chatbot.py` lines 266-283); the `RuntimeError`
raised on an unknown role is modelled by `Except.error`. -/
def conversation_state (history : List Msg) : Except String ConversationState :=
  match history.getLast? with
  | none => .ok .waiting_for_user
  | some last =>
    if last.role = "assistant" then .ok .bot_speaking
    else if last.role = "user" then
      if isBlank last.content then .ok .waiting_for_user else .ok .user_speaking
    else if last.role = "system" then .ok .waiting_for_user
    else .error ("Unknown role: " ++ last.role)

/-- The `Literal["user", "assistant"]` role parameter of
`Chatbot.add_chat_message_delta`. -/
inductive DeltaRole
  | user
  | assistant
deriving DecidableEq, Repr

/-- The role string carried by a `DeltaRole`. -/
def DeltaRole.toRole : DeltaRole → String
  | .user => "user"
  | .assistant => "assistant"

/-- Embeds Python `s != "" and not s[-1].isspace()` (`chatbot.py` line 319). -/
def lastCharNotWS (s : String) : Bool :=
  match s.data.getLast? with
  | some c => !c.isWhitespace
  | none => false

/-- Embeds Python `s != "" and not s[0].isspace()` (`chatbot.py` line 320). -/
def firstCharNotWS (s : String) : Bool :=
  match s.data.head? with
  | some c => !c.isWhitespace
  | none => false

/-- The append/merge step of `Chatbot.add_chat_message_delta`
(`chatbot.py` lines 310-326): start a new message when the history is empty or the
last role differs; otherwise extend the last message, inserting one space exactly
when both boundary characters exist and are non-whitespace. Returns
`(is_new_message, new history)`. -/
def addDeltaCore (history : List Msg) (delta : String) (role : String) :
    Bool × List Msg :=
  match history.getLast? with
  | none => (true, history ++ [⟨role, delta⟩])
  | some last =>
    if last.role ≠ role then (true, history ++ [⟨role, delta⟩])
    else
      let delta2 :=
        if lastCharNotWS last.content && firstCharNotWS delta
        then " " ++ delta else delta
      (last.content = "", history.dropLast ++ [⟨last.role, last.content ++ delta2⟩])

/-- `Chatbot.add_chat_message_delta` (`chatbot.py` lines 285-339): the optional
stale-index guard (return `False` without mutating when the history already has
more messages than `generating_message_i`), then the append/merge step, then
`truncate_if_needed` at the default cap (the truncation is applied when a
character history is active and is the identity below the cap). -/
def add_chat_message_delta (history : List Msg) (delta : String) (role : DeltaRole)
    (generating_message_i : Option Nat) : Bool × List Msg :=
  match generating_message_i with
  | some i =>
    if history.length > i then (false, history)
    else
      let r := addDeltaCore history delta role.toRole
      (r.1, (truncate_if_needed r.2 MAX_MESSAGES_PER_CHARACTER).1)
  | none =>
    let r := addDeltaCore history delta role.toRole
    (r.1, (truncate_if_needed r.2 MAX_MESSAGES_PER_CHARACTER).1)

/-- Folds a sequence of `add_chat_message_delta` calls (no expected-index guard)
over a starting history. -/
def applyDeltas (history : List Msg) (deltas : List (String × DeltaRole)) :
    List Msg :=
  deltas.foldl (fun h d => (add_chat_message_delta h d.1 d.2 none).2) history

/-- Two adjacent messages have different roles. -/
def RolesDiffer (a b : Msg) : Prop := a.role ≠ b.role

/-- Invariant maintained by `add_chat_message_delta` on a system-seeded
character history: no two adjacent messages share a role, the head is the system
message, and every later message has role `user` or `assistant`. -/
def HistInv (h : List Msg) : Prop :=
  h.Chain' RolesDiffer ∧
  match h with
  | [] => False
  | m :: rest => m.role = "system" ∧ ∀ x ∈ rest, x.role = "user" ∨ x.role = "assistant"

/-- `INTERRUPTION_CHAR` (`llm_utils.py` line 14), an em-dash. -/
def INTERRUPTION_CHAR : Char := '—'

/-- `USER_SILENCE_MARKER` (`llm_utils.py` line 15). -/
def USER_SILENCE_MARKER : String := "..."

/-- Embeds `message["content"].replace(INTERRUPTION_CHAR, "") == ""`
(`llm_utils.py` line 29): the content is empty after removing every em-dash iff
every character is the em-dash. -/
def interruptionOnly (s : String) : Bool := s.data.all (· == INTERRUPTION_CHAR)

/-- The `role_at` helper of `preprocess_messages_for_llm` (`llm_utils.py`
lines 37-40). -/
def roleAt (output : List Msg) (i : Nat) : Option String := (output[i]?).map Msg.role

/-- One iteration of the first loop of `preprocess_messages_for_llm`
(`llm_utils.py` lines 23-35): skip interruption-only messages, merge a message
into the previous one (joined by one space) when the roles coincide, else append.
The loop operates on deep copies of the input messages. -/
def mergeStep (out : List Msg) (m : Msg) : List Msg :=
  if interruptionOnly m.content then out
  else
    match out.getLast? with
    | some last =>
      if m.role = last.role then
        out.dropLast ++ [⟨last.role, last.content ++ " " ++ m.content⟩]
      else out ++ [m]
    | none => out ++ [m]

/-- The dummy-user insertion of `preprocess_messages_for_llm` (`llm_utils.py`
lines 42-45). -/
def insertHelloIfNeeded (output : List Msg) : List Msg :=
  if roleAt output 0 = some "system" ∧
      (roleAt output 1 = none ∨ roleAt output 1 = some "assistant") then
    output.take 1 ++ [⟨"user", "Hello."⟩] ++ output.drop 1
  else output

/-- The second loop of `preprocess_messages_for_llm` (`llm_utils.py` lines 47-58):
for each user message of the *input* list `chat_history` that starts with the
silence marker and is not exactly the marker, remove the marker from its content.
In the Python this loop mutates the caller's list in place. -/
def stripSilenceMarker (chat_history : List Msg) : List Msg :=
  chat_history.map fun m =>
    if m.role = "user" ∧ USER_SILENCE_MARKER.data.isPrefixOf m.content.data ∧
        m.content ≠ USER_SILENCE_MARKER then
      ⟨m.role, String.mk (m.content.data.drop USER_SILENCE_MARKER.data.length)⟩
    else m

/-- `preprocess_messages_for_llm` (`llm_utils.py` lines 18-60). The first
component is the `output` list the function returns (built from deep copies by
the first loop, plus the dummy-user insertion); the second component is the state
of the caller's `chat_history` list after the call, which the second loop mutates
in place (the silence-marker stripping lands there, not on `output`). -/
def preprocess_messages_for_llm (chat_history : List Msg) : List Msg × List Msg :=
  (insertHelloIfNeeded (chat_history.foldl mergeStep []),
   stripSilenceMarker chat_history)

/-- `Chatbot.preprocessed_messages` (`chatbot.py` lines 341-357): pass the history
through when it has more than 2 messages, otherwise synthesize
`[system, {"user", "Hello!"}]`; then apply `preprocess_messages_for_llm` and
return its output list. `none` models a failed assertion. -/
def preprocessed_messages (current_history : List Msg) : Option (List Msg) :=
  if current_history.length > 2 then
    some (preprocess_messages_for_llm current_history).1
  else
    match current_history with
    | [] => none
    | m0 :: _ =>
      if m0.role = "system" then
        some (preprocess_messages_for_llm [m0, ⟨"user", "Hello!"⟩]).1
      else none

/-- One element of `delta.tool_calls` in a streamed chunk
(`llm_utils.py` lines 206-226): a stream index plus optional id, function name
and arguments fragment. `some ""` models an empty (Python-falsy) string. -/
structure ToolCallDelta where
  index : Nat
  id : Option String
  name : Option String
  arguments : Option String
deriving DecidableEq, Repr

/-- An entry of `tool_calls_buffer`: accumulated id, function name and argument
text for one stream index. -/
structure ToolCallAcc where
  id : String
  name : String
  arguments : String
deriving DecidableEq, Repr

/-- The initial buffer entry created when a stream index is first seen
(`llm_utils.py` lines 210-218). -/
def initAcc (d : ToolCallDelta) : ToolCallAcc :=
  { id := d.id.getD "", name := d.name.getD "", arguments := "" }

/-- The accumulation step for one `ToolCallDelta` (`llm_utils.py` lines 220-226):
a truthy name replaces the stored name, a truthy arguments fragment is
concatenated, a truthy id replaces the stored id. -/
def applyToolCallDelta (a : ToolCallAcc) (d : ToolCallDelta) : ToolCallAcc :=
  let a1 := match d.name with
    | some n => if n = "" then a else { a with name := n }
    | none => a
  let a2 := match d.arguments with
    | some s => if s = "" then a1 else { a1 with arguments := a1.arguments ++ s }
    | none => a1
  match d.id with
  | some i => if i = "" then a2 else { a2 with id := i }
  | none => a2

/-- `tool_calls_buffer` as an association list in insertion order (modelling the
Python dict, whose keys are distinct). -/
def updateBuffer (buf : List (Nat × ToolCallAcc)) (d : ToolCallDelta) :
    List (Nat × ToolCallAcc) :=
  if buf.any (·.1 = d.index) then
    buf.map fun p => if p.1 = d.index then (p.1, applyToolCallDelta p.2 d) else p
  else
    buf ++ [(d.index, applyToolCallDelta (initAcc d) d)]

/-- One streamed chunk of the first upstream response: the tool-call deltas
(empty list models a falsy `delta.tool_calls`) and the optional content
(`some ""` models an empty, Python-falsy string). -/
structure Chunk where
  toolCalls : List ToolCallDelta
  content : Option String
deriving DecidableEq, Repr

/-- The loop state of `VLLMStream.chat_completion` while consuming the first
stream (`llm_utils.py` lines 197-234): the tool-call buffer,
`assistant_message_content`, the detection flag, and the contents yielded to the
caller so far. -/
structure StreamState where
  buffer : List (Nat × ToolCallAcc)
  content : List String
  detected : Bool
  yielded : List String
deriving DecidableEq, Repr

/-- Processing of one chunk by `VLLMStream.chat_completion`
(`llm_utils.py` lines 202-234): accumulate truthy tool-call deltas and set the
detection flag; append truthy content to `assistant_message_content`, yielding it
immediately iff `not self.tools or not self.prompt_generator`. -/
def processChunk (toolsDeclared hasPromptGenerator : Bool) (st : StreamState)
    (c : Chunk) : StreamState :=
  let st1 :=
    if c.toolCalls.isEmpty then st
    else { st with detected := true, buffer := c.toolCalls.foldl updateBuffer st.buffer }
  match c.content with
  | some s =>
    if s = "" then st1
    else
      { st1 with
        content := st1.content ++ [s]
        yielded :=
          if !toolsDeclared || !hasPromptGenerator then st1.yielded ++ [s]
          else st1.yielded }
  | none => st1

/-- The initial loop state. -/
def initStreamState : StreamState := ⟨[], [], false, []⟩

/-- The loop state after the first stream is exhausted. -/
def streamFold (toolsDeclared hasPromptGenerator : Bool) (chunks : List Chunk) :
    StreamState :=
  chunks.foldl (processChunk toolsDeclared hasPromptGenerator) initStreamState

/-- Key order used by `sorted(tool_calls_buffer.keys())`. -/
def keyLe (a b : Nat × ToolCallAcc) : Prop := a.1 ≤ b.1

instance : DecidableRel keyLe := fun a b => Nat.decLe a.1 b.1

instance : IsTotal (Nat × ToolCallAcc) keyLe := ⟨fun a b => Nat.le_total a.1 b.1⟩

instance : IsTrans (Nat × ToolCallAcc) keyLe := ⟨fun _ _ _ => Nat.le_trans⟩

/-- `tool_calls = [tool_calls_buffer[idx] for idx in sorted(tool_calls_buffer.keys())]`
(`llm_utils.py` line 243): the buffer entries ordered by ascending stream index. -/
def sortedToolCalls (buf : List (Nat × ToolCallAcc)) : List (Nat × ToolCallAcc) :=
  buf.insertionSort keyLe

/-- The observable outcome of one `VLLMStream.chat_completion` call: the content
fragments yielded to the caller in order, the `(name, arguments)` pairs passed to
`execute_tool` in execution order, and for each follow-up upstream request
whether it declared tools. -/
structure CompletionTrace where
  yielded : List String
  executed : List (String × String)
  requeries : List Bool
deriving DecidableEq, Repr

/-- `VLLMStream.chat_completion` (`llm_utils.py` lines 173-300) as a function of
the upstream behaviour: `chunks` is the first stream, `finalChunks` the content
deltas of the re-query stream (used only when tools run). After the first stream:
if tool calls were detected and both `self.prompt_generator` and `self.tools` are
truthy, execute the assembled calls in ascending stream-index order and issue one
re-query without tool declarations, streaming its content; otherwise, if no tool
calls were detected and `assistant_message_content` is non-empty, yield the
buffered contents (lines 297-300) — in addition to anything already yielded
during the loop. -/
def chat_completion (toolsDeclared hasPromptGenerator : Bool) (chunks : List Chunk)
    (finalChunks : List (Option String)) : CompletionTrace :=
  let st := streamFold toolsDeclared hasPromptGenerator chunks
  if st.detected && hasPromptGenerator && toolsDeclared then
    let calls := sortedToolCalls st.buffer
    { yielded := st.yielded ++ finalChunks.filterMap (fun c =>
        match c with
        | some s => if s = "" then none else some s
        | none => none)
      executed := calls.map fun p => (p.2.name, p.2.arguments)
      requeries := [false] }
  else if !st.detected && !st.content.isEmpty then
    { yielded := st.yielded ++ st.content, executed := [], requeries := [] }
  else
    { yielded := st.yielded, executed := [], requeries := [] }

/-- Result of `json.loads(tool_input_json)` in `execute_tool`
(`tool_executor.py` lines 181-187): a parse failure (with the decoder's message),
a JSON object (mapping), or valid JSON that is not a mapping. -/
inductive ParseResult
  | parseError (msg : String)
  | object
  | nonMapping
deriving DecidableEq, Repr

/-- Outcome of applying a registered Pydantic validator to the parsed mapping
(`tool_executor.py` lines 192-203): success, or a `ValidationError` whose first
error names a field and a message. -/
inductive ValidationOutcome
  | valid
  | invalid (field msg : String)
deriving DecidableEq, Repr

/-- Outcome of `prompt_generator.handle_tool_call` under the 100 ms deadline
(`tool_executor.py` lines 206-250): a successful result string, deadline
exceeded, or an exception of the given type and message. -/
inductive HandlerOutcome
  | success (result : String)
  | timeout
  | raises (exnType exnMsg : String)
deriving DecidableEq, Repr

/-- The error classes recorded by `CHARACTER_TOOL_ERRORS.labels(error_type=...)`. -/
inductive ErrorClass
  | json_parse
  | validation
  | timeout
  | execution
deriving DecidableEq, Repr

/-- How a call to `execute_tool` ends: a normal return carrying the result string
and the error class recorded (if any), or a Python exception escaping the
function. -/
inductive ExecOutcome
  | returns (result : String) (recorded : Option ErrorClass)
  | raises (exnType : String)
deriving DecidableEq, Repr

/-- Whether an `ExecOutcome` is an escaping exception. -/
def ExecOutcome.isRaise : ExecOutcome → Bool
  | .raises _ => true
  | _ => false

/-- Step 3 of `execute_tool` (`tool_executor.py` lines 206-250): run the handler;
`asyncio.TimeoutError` is returned as a timeout error string, any other handler
exception as an execution error string. -/
def runHandler : HandlerOutcome → ExecOutcome
  | .success r => .returns r none
  | .timeout => .returns "Error: Tool execution timed out (exceeded 100ms)" (some .timeout)
  | .raises t m => .returns ("Error: " ++ t ++ " - " ++ m) (some .execution)

/-- `execute_tool` (`tool_executor.py` lines 141-250), as a function of the JSON
parse result, the registered validator's outcome (`none` when
`tool_validators.get(tool_name)` is `None` — in particular for unknown tool
names), and the handler's outcome. The only escaping exception is the `TypeError`
raised by the keyword-splat `validator(**tool_input)` when the parsed JSON is not
a mapping and a validator is registered; the `try` at lines 192-195 catches only
`ValidationError`. -/
def execute_tool (parse : ParseResult) (validator : Option ValidationOutcome)
    (handler : HandlerOutcome) : ExecOutcome :=
  match parse with
  | .parseError msg =>
    .returns ("Error: Invalid JSON arguments - " ++ msg) (some .json_parse)
  | .nonMapping =>
    match validator with
    | some _ => .raises "TypeError"
    | none => runHandler handler
  | .object =>
    match validator with
    | some .valid => runHandler handler
    | some (.invalid field msg) =>
      .returns ("Error: Invalid parameter '" ++ field ++ "' - " ++ msg) (some .validation)
    | none => runHandler handler

/-- `HealthStatus` (`main_websocket.py` lines 217-221). -/
structure HealthStatus where
  tts_up : Bool
  stt_up : Bool
  llm_up : Bool
  voice_cloning_up : Bool
deriving DecidableEq, Repr

/-- `HealthStatus.ok` (`main_websocket.py` lines 223-227): voice cloning is not
required for the server to be healthy. -/
def HealthStatus.ok (h : HealthStatus) : Bool := h.tts_up && h.stt_up && h.llm_up

/-- The admission gate of `_run_route` (`main_websocket.py` lines 568-576): the
session is refused (closed with `WS_1011_INTERNAL_ERROR` and a diagnostic reason,
before any session task starts) iff the health check is not ok. -/
def sessionRefused (h : HealthStatus) : Bool := !h.ok

/-- Python exceptions relevant to one `receive_loop` iteration
(`main_websocket.py` lines 622-665). -/
inductive PyError
  | jsonDecodeError
  | validationError
  | indexError
deriving DecidableEq, Repr

/-- The per-message error recovery of `receive_loop`
(`main_websocket.py` lines 622-644): only `json.JSONDecodeError` and pydantic
`ValidationError` are caught (an error event is emitted and the loop continues);
every other exception escapes to the task group. -/
def recoveredPerMessage : PyError → Bool
  | .jsonDecodeError => true
  | .validationError => true
  | .indexError => false

/-- An inbound frame as seen by one `receive_loop` iteration: text that fails
JSON decoding, text that fails schema validation, an
`input_audio_buffer.append` event carrying the base64-decoded payload bytes, or
any other valid event. -/
inductive InboundFrame
  | malformedJson
  | invalidSchema
  | audioAppend (opusBytes : List Nat)
  | otherEvent
deriving DecidableEq, Repr

/-- How one `receive_loop` iteration ends: an `invalid_request_error` event is
emitted and the loop continues; the frame is skipped (still waiting for the
stream-start marker); the frame is processed; or an exception escapes the loop,
failing the task group and terminating the whole session. -/
inductive IterResult
  | errorEventEmitted
  | skipped
  | processed
  | sessionCrash (e : PyError)
deriving DecidableEq, Repr

/-- One iteration of `receive_loop` (`main_websocket.py` lines 605-665),
restricted to what decides the claim: JSON/schema failures are recovered
per-message; for an audio append while `wait_for_first_opus` is set, the code
reads `opus_bytes[5] & 2` with no length guard, so a decoded payload shorter than
6 bytes raises `IndexError`, which no handler in the loop catches. -/
def receiveIteration (waitForFirstOpus : Bool) (m : InboundFrame) : IterResult :=
  match m with
  | .malformedJson => .errorEventEmitted
  | .invalidSchema => .errorEventEmitted
  | .audioAppend opusBytes =>
    if waitForFirstOpus then
      match opusBytes[5]? with
      | none => .sessionCrash .indexError
      | some b => if b &&& 2 ≠ 0 then .processed else .skipped
    else .processed
  | .otherEvent => .processed

deriving instance DecidableEq for Except

/-! ## Helper lemmas -/

/-- Closed form of `truncate_if_needed` on an over-full history, for caps of at
least 2: keep the head and the `N - 1` most recent messages. -/
theorem truncate_eq_of_gt (N : Nat) (m0 : Msg) (rest : List Msg)
    (h2 : 2 ≤ N) (hlt : N < rest.length + 1) :
    truncate_if_needed (m0 :: rest) N
      = (m0 :: rest.drop (rest.length + 1 - N), rest.length + 1 - N) := by
  have hcond : ¬((m0 :: rest).length ≤ N) := by
    simp only [List.length_cons]; omega
  unfold truncate_if_needed pyDropFrom
  rw [if_neg hcond, if_pos (by omega : -(N : Int) + 1 < 0)]
  have htn : (((m0 :: rest).length : Int) + (-(N : Int) + 1)).toNat
      = (rest.length + 1 - N) + 1 := by
    simp only [List.length_cons]
    omega
  rw [htn, List.drop_succ_cons]
  simp only [List.length_cons, List.take_succ_cons, List.take_zero,
    List.singleton_append]

/-- `truncate_if_needed` is the identity (removing 0 messages) at or below the
cap. -/
theorem truncate_eq_of_le (messages : List Msg) (N : Nat)
    (hle : messages.length ≤ N) : truncate_if_needed messages N = (messages, 0) := by
  unfold truncate_if_needed
  rw [if_pos hle]

/-! ## Claim theorems -/

/-- C4 (counterexample): as stated, the truncation claim fails at cap `N = 1`.
For a history of a system message plus one appended message (`M = 1`, so
`M + 1 > N`), `truncate_if_needed` with `max_messages = 1` leaves 3 messages
(the Python slice `messages[-1 + 1:]` is `messages[0:]`, the whole list), not
exactly `N = 1`, while reporting 1 message removed. -/
theorem c4_cap_one_counterexample :
    (truncate_if_needed [⟨"system", "s"⟩, ⟨"user", "m1"⟩] 1).1
        = [⟨"system", "s"⟩, ⟨"system", "s"⟩, ⟨"user", "m1"⟩]
      ∧ ¬((truncate_if_needed [⟨"system", "s"⟩, ⟨"user", "m1"⟩] 1).1.length = 1)
      ∧ (truncate_if_needed [⟨"system", "s"⟩, ⟨"user", "m1"⟩] 1).2 = 1 := by
  decide

/-- C4 (amended): for every cap `N ≥ 2` and every history built as a head
message `m0` plus `M` appended messages with `M + 1 > N`, `truncate_if_needed`
leaves exactly `N` messages — the original head followed by the `N - 1` most
recently appended messages in their original order — and returns the number of
messages removed; a history of at most `N` messages is left unchanged with 0
removed. -/
theorem c4_truncation_invariant :
    (∀ (N : Nat) (m0 : Msg) (rest : List Msg), 2 ≤ N → N < rest.length + 1 →
      (truncate_if_needed (m0 :: rest) N).1
          = m0 :: rest.drop (rest.length + 1 - N)
        ∧ (truncate_if_needed (m0 :: rest) N).1.length = N
        ∧ (truncate_if_needed (m0 :: rest) N).2 = rest.length + 1 - N)
    ∧ (∀ (messages : List Msg) (N : Nat), messages.length ≤ N →
        truncate_if_needed messages N = (messages, 0)) := by
  constructor
  · intro N m0 rest h2 hlt
    rw [truncate_eq_of_gt N m0 rest h2 hlt]
    refine ⟨rfl, ?_, rfl⟩
    simp only [List.length_cons, List.length_drop]
    omega
  · exact truncate_eq_of_le

/-- C4 witness: the amended theorem at cap 2 on a 3-message history, and the
below-cap branch at cap 100 on a 1-message history. -/
theorem c4_truncation_invariant_witness :
    ((truncate_if_needed [⟨"system", "s"⟩, ⟨"user", "a"⟩, ⟨"user", "b"⟩] 2).1
        = [⟨"system", "s"⟩, ⟨"user", "b"⟩])
      ∧ truncate_if_needed [⟨"system", "s"⟩] 100 = ([⟨"system", "s"⟩], 0) := by
  refine ⟨?_, c4_truncation_invariant.2 [⟨"system", "s"⟩] 100 (by decide)⟩
  have h := (c4_truncation_invariant.1 2 ⟨"system", "s"⟩
    [⟨"user", "a"⟩, ⟨"user", "b"⟩] (by decide) (by decide)).1
  simpa using h

/-- C6: when `generating_message_i` is supplied and the history already has more
messages than that index, `add_chat_message_delta` returns `False` and leaves
the history unchanged — nothing is appended, no content changes, and no
truncation happens. -/
theorem c6_stale_index_rejected (history : List Msg) (delta : String)
    (role : DeltaRole) (i : Nat) (hi : history.length > i) :
    add_chat_message_delta history delta role (some i) = (false, history) := by
  simp [add_chat_message_delta, hi]

/-- C6 witness: a stale delta against a 2-message history with index 1. -/
theorem c6_stale_index_rejected_witness :
    add_chat_message_delta [⟨"system", "s"⟩, ⟨"user", "hi"⟩] "x" .user (some 1)
      = (false, [⟨"system", "s"⟩, ⟨"user", "hi"⟩]) :=
  c6_stale_index_rejected [⟨"system", "s"⟩, ⟨"user", "hi"⟩] "x" .user 1 (by decide)

/-- C7: `conversation_state` is a pure function of the history's last message:
empty history or last role `system` gives `waiting_for_user`; last role
`assistant` gives `bot_speaking`; last role `user` gives `user_speaking` for
non-blank content and `waiting_for_user` for blank content; any other role is an
error (`RuntimeError` in the source). -/
theorem c7_conversation_state_cases :
    conversation_state [] = .ok .waiting_for_user
    ∧ (∀ (h : List Msg) (last : Msg), h.getLast? = some last →
        (last.role = "assistant" → conversation_state h = .ok .bot_speaking)
        ∧ (last.role = "user" → isBlank last.content = false →
            conversation_state h = .ok .user_speaking)
        ∧ (last.role = "user" → isBlank last.content = true →
            conversation_state h = .ok .waiting_for_user)
        ∧ (last.role = "system" → conversation_state h = .ok .waiting_for_user)
        ∧ (last.role ≠ "assistant" → last.role ≠ "user" → last.role ≠ "system" →
            conversation_state h = .error ("Unknown role: " ++ last.role)))
    ∧ (∀ h₁ h₂ : List Msg, h₁.getLast? = h₂.getLast? →
        conversation_state h₁ = conversation_state h₂) := by
  refine ⟨rfl, ?_, ?_⟩
  · intro h last hl
    unfold conversation_state
    rw [hl]
    refine ⟨?_, ?_, ?_, ?_, ?_⟩ <;> intros <;> simp [*]
  · intro h₁ h₂ h12
    unfold conversation_state
    rw [h12]

/-- C7 witness: the last-message cases at concrete histories, each obtained from
the theorem. -/
theorem c7_conversation_state_cases_witness :
    conversation_state [⟨"system", "p"⟩, ⟨"assistant", "x"⟩] = .ok .bot_speaking
    ∧ conversation_state [⟨"user", "hey"⟩] = .ok .user_speaking
    ∧ conversation_state [⟨"user", "  "⟩] = .ok .waiting_for_user
    ∧ conversation_state [⟨"system", "p"⟩] = .ok .waiting_for_user
    ∧ conversation_state [⟨"tool", "r"⟩] = .error "Unknown role: tool" :=
  ⟨(c7_conversation_state_cases.2.1 [⟨"system", "p"⟩, ⟨"assistant", "x"⟩]
      ⟨"assistant", "x"⟩ (by decide)).1 rfl,
   (c7_conversation_state_cases.2.1 [⟨"user", "hey"⟩] ⟨"user", "hey"⟩
      (by decide)).2.1 rfl (by decide),
   (c7_conversation_state_cases.2.1 [⟨"user", "  "⟩] ⟨"user", "  "⟩
      (by decide)).2.2.1 rfl (by decide),
   (c7_conversation_state_cases.2.1 [⟨"system", "p"⟩] ⟨"system", "p"⟩
      (by decide)).2.2.2.1 rfl,
   (c7_conversation_state_cases.2.1 [⟨"tool", "r"⟩] ⟨"tool", "r"⟩
      (by decide)).2.2.2.2 (by decide) (by decide) (by decide)⟩

/-- C9: for every combination of the four health booleans, a new session is
refused (terminal close before any session task starts) iff at least one of the
three blocking services (STT, TTS, chat/LLM) is unhealthy, and the
voice-cloning health value never influences the decision. -/
theorem c9_health_gate :
    ∀ tts stt llm vc : Bool,
      (sessionRefused ⟨tts, stt, llm, vc⟩ = true
        ↔ stt = false ∨ tts = false ∨ llm = false)
      ∧ (∀ vc' : Bool,
          sessionRefused ⟨tts, stt, llm, vc⟩ = sessionRefused ⟨tts, stt, llm, vc'⟩) := by
  decide

/-- C10: in `receive_loop`, the pre-stream-start audio path reads byte index 5
of the decoded payload with no length guard: the access is in bounds iff the
payload has at least 6 bytes; any shorter payload raises `IndexError`, an
exception the per-message recovery (which catches only JSON-decode and schema
validation errors) does not cover, so it escapes and fails the session's task
group. -/
theorem c10_opus_index_guard :
    ∀ opusBytes : List Nat,
      (opusBytes[5]?.isSome = true ↔ 6 ≤ opusBytes.length)
      ∧ (opusBytes.length < 6 →
          receiveIteration true (.audioAppend opusBytes) = .sessionCrash .indexError)
      ∧ recoveredPerMessage .indexError = false
      ∧ (∀ e, recoveredPerMessage e = true
          ↔ e = .jsonDecodeError ∨ e = .validationError) := by
  intro opusBytes
  refine ⟨?_, ?_, rfl, ?_⟩
  · rw [Option.isSome_iff_exists]
    constructor
    · rintro ⟨a, ha⟩
      have := (List.getElem?_eq_some.mp ha).1
      omega
    · intro h
      exact ⟨opusBytes.get ⟨5, by omega⟩, List.getElem?_eq_some.mpr ⟨by omega, rfl⟩⟩
  · intro hshort
    have hnone : opusBytes[5]? = none := by
      rw [List.getElem?_eq_none_iff]
      omega
    simp [receiveIteration, hnone]
  · intro e
    cases e <;> simp [recoveredPerMessage]

/-- C10 witness: the empty payload crashes the session with `IndexError`. -/
theorem c10_opus_index_guard_witness :
    receiveIteration true (.audioAppend []) = .sessionCrash .indexError :=
  (c10_opus_index_guard []).2.1 (by decide)

/-- C3 (counterexample): an unknown tool name does not make `execute_tool`
raise. With no registered validator (`tool_validators.get` returns `None`, as
for an unknown name) and a handler that raises `ValueError` (as the characters'
`handle_tool_call` does for unknown tools), `execute_tool` catches the exception
in its `except Exception` arm and returns a structured execution error string —
the claim requires a raise here. -/
theorem c3_unknown_tool_does_not_raise :
    execute_tool .object none (.raises "ValueError" "Unknown tool: foo")
        = .returns "Error: ValueError - Unknown tool: foo" (some .execution)
      ∧ (execute_tool .object none
          (.raises "ValueError" "Unknown tool: foo")).isRaise = false := by
  decide

/-- C3 (amended): `execute_tool` raises if and only if the parsed JSON arguments
are not a mapping while a validator is registered (the keyword-splat
`validator(**tool_input)` raises a `TypeError` that only the
`ValidationError` handler surrounds); in particular it never raises for an
unknown tool name (no registered validator) — the handler's exception comes back
as a structured `execution` error string. The other failure modes return
normally with the stated classifications: JSON parse failure `json_parse`,
validator rejection `validation`, deadline exceeded `timeout`, any other handler
exception `execution`. -/
theorem c3_error_classification :
    ∀ (p : ParseResult) (v : Option ValidationOutcome) (hd : HandlerOutcome),
      ((execute_tool p v hd).isRaise = true ↔ p = .nonMapping ∧ v.isSome = true)
      ∧ (∀ msg, execute_tool (.parseError msg) v hd
          = .returns ("Error: Invalid JSON arguments - " ++ msg) (some .json_parse))
      ∧ (∀ field msg, execute_tool .object (some (.invalid field msg)) hd
          = .returns ("Error: Invalid parameter '" ++ field ++ "' - " ++ msg)
              (some .validation))
      ∧ (p ≠ .nonMapping → (∀ msg, p ≠ .parseError msg) →
          execute_tool p (some .valid) hd = runHandler hd)
      ∧ (p ≠ .nonMapping → (∀ msg, p ≠ .parseError msg) →
          execute_tool p none hd = runHandler hd)
      ∧ runHandler .timeout
          = .returns "Error: Tool execution timed out (exceeded 100ms)" (some .timeout)
      ∧ (∀ t m, runHandler (.raises t m)
          = .returns ("Error: " ++ t ++ " - " ++ m) (some .execution))
      ∧ (∀ r, runHandler (.success r) = .returns r none) := by
  intro p v hd
  refine ⟨?_, fun msg => rfl, fun field msg => rfl, ?_, ?_, rfl,
    fun t m => rfl, fun r => rfl⟩
  · cases p with
    | parseError msg => simp [execute_tool, ExecOutcome.isRaise]
    | object =>
      rcases v with _ | v
      · cases hd <;> simp [execute_tool, runHandler, ExecOutcome.isRaise]
      · cases v with
        | valid => cases hd <;> simp [execute_tool, runHandler, ExecOutcome.isRaise]
        | invalid f m => simp [execute_tool, ExecOutcome.isRaise]
    | nonMapping =>
      rcases v with _ | v
      · cases hd <;> simp [execute_tool, runHandler, ExecOutcome.isRaise]
      · simp [execute_tool, ExecOutcome.isRaise]
  · intro hnm hpe
    cases p with
    | parseError msg => exact absurd rfl (hpe msg)
    | object => rfl
    | nonMapping => exact absurd rfl hnm
  · intro hnm hpe
    cases p with
    | parseError msg => exact absurd rfl (hpe msg)
    | object => rfl
    | nonMapping => exact absurd rfl hnm

/-- C3 amended witness: the timeout classification at a concrete input (object
arguments, no validator, handler exceeds the deadline), with the conditional
clauses discharged concretely. -/
theorem c3_error_classification_witness :
    execute_tool .object none .timeout
      = .returns "Error: Tool execution timed out (exceeded 100ms)" (some .timeout) := by
  have h := (c3_error_classification .object none .timeout).2.2.2.2.1
    (by decide) (fun msg => by simp)
  rw [h]
  exact (c3_error_classification .object none .timeout).2.2.2.2.2.1

/-- C8: the silence-marker stripping of `preprocess_messages_for_llm` mutates
the caller's input list, not the `output` list it returns (which was built from
deep copies before the stripping loop runs). On a history whose second message
is a user message `"...hi"`, `preprocessed_messages` returns the marker-prefixed
content unchanged, while the input list ends up stripped — the claim says the
returned list has the marker removed. -/
theorem c8_silence_marker_not_stripped :
    preprocessed_messages [⟨"system", "s"⟩, ⟨"user", "...hi"⟩, ⟨"assistant", "yo"⟩]
        = some [⟨"system", "s"⟩, ⟨"user", "...hi"⟩, ⟨"assistant", "yo"⟩]
      ∧ (preprocess_messages_for_llm
          [⟨"system", "s"⟩, ⟨"user", "...hi"⟩, ⟨"assistant", "yo"⟩]).2
        = [⟨"system", "s"⟩, ⟨"user", "hi"⟩, ⟨"assistant", "yo"⟩] := by
  decide

/-- C1: when no tools are declared (`self.tools` falsy), each upstream content
delta is yielded immediately during the loop *and* yielded again by the
end-of-stream flush at lines 297-300 (whose own comment says it "shouldn't
happen if tools not defined"), so the caller receives every delta twice. In
contrast, with tools declared and a prompt generator bound but no tool invoked,
the content is buffered and flushed exactly once, as the spec describes. -/
theorem c1_no_tools_double_yield :
    chat_completion false false [⟨[], some "Hi"⟩] [] =
        { yielded := ["Hi", "Hi"], executed := [], requeries := [] }
      ∧ chat_completion true true [⟨[], some "Hi"⟩] [] =
        { yielded := ["Hi"], executed := [], requeries := [] } := by
  decide

/-- The role string of a `DeltaRole` is `user` or `assistant`. -/
theorem toRole_user_or_assistant (r : DeltaRole) :
    r.toRole = "user" ∨ r.toRole = "assistant" := by
  cases r <;> simp [DeltaRole.toRole]

/-- The role string of a `DeltaRole` is never `system`. -/
theorem toRole_ne_system (r : DeltaRole) : r.toRole ≠ "system" := by
  cases r <;> simp [DeltaRole.toRole]

/-- The append/merge step preserves the history invariant. -/
theorem histInv_addDeltaCore (h : List Msg) (d : String) (r : DeltaRole)
    (hinv : HistInv h) : HistInv (addDeltaCore h d r.toRole).2 := by
  obtain ⟨hch, hhd⟩ := hinv
  cases h with
  | nil => exact hhd.elim
  | cons m rest =>
    obtain ⟨hsys, hrest⟩ := hhd
    rcases hL : (m :: rest).getLast? with _ | b
    · rw [List.getLast?_eq_none_iff] at hL
      exact absurd hL (by simp)
    · have hbmem : b ∈ m :: rest := List.mem_of_mem_getLast? (by rw [hL]; rfl)
      have hdecomp : (m :: rest).dropLast ++ [b] = m :: rest :=
        List.dropLast_append_getLast? b (by rw [hL]; rfl)
      by_cases hr : b.role = r.toRole
      · -- merge branch: the last message is extended, roles unchanged
        have hbranch : (addDeltaCore (m :: rest) d r.toRole).2
            = (m :: rest).dropLast
              ++ [⟨b.role, b.content
                    ++ (if lastCharNotWS b.content && firstCharNotWS d
                        then " " ++ d else d)⟩] := by
          simp only [addDeltaCore, hL]
          rw [if_neg (not_not_intro hr)]
        rw [hbranch]
        have hch' := hch
        rw [← hdecomp] at hch'
        rcases List.chain'_append.mp hch' with ⟨hchdl, -, hlink⟩
        constructor
        · refine List.chain'_append.mpr ⟨hchdl, List.chain'_singleton _, ?_⟩
          intro x hx y hy
          simp only [List.head?_cons, Option.mem_def, Option.some.injEq] at hy
          subst hy
          exact hlink x hx b (by rfl)
        · cases rest with
          | nil =>
            have hbm : b = m := by
              have := hL
              simp only [List.getLast?_singleton, Option.some.injEq] at this
              exact this.symm
            rw [hbm] at hr
            rw [hsys] at hr
            exact absurd hr.symm (toRole_ne_system r)
          | cons r0 rs =>
            rw [List.dropLast_cons₂, List.cons_append]
            refine ⟨hsys, ?_⟩
            intro x hx
            rcases List.mem_append.mp hx with hx1 | hx1
            · exact hrest x (List.mem_of_mem_dropLast hx1)
            · simp only [List.mem_singleton] at hx1
              subst hx1
              rw [hr]
              exact toRole_user_or_assistant r
      · -- append branch: a fresh message with the delta's role is added
        have hbranch : (addDeltaCore (m :: rest) d r.toRole).2
            = (m :: rest) ++ [⟨r.toRole, d⟩] := by
          simp only [addDeltaCore, hL]
          rw [if_pos hr]
        rw [hbranch]
        constructor
        · refine List.chain'_append.mpr ⟨hch, List.chain'_singleton _, ?_⟩
          intro x hx y hy
          rw [hL] at hx
          simp only [Option.mem_def, Option.some.injEq] at hx
          simp only [List.head?_cons, Option.mem_def, Option.some.injEq] at hy
          subst hx; subst hy
          exact hr
        · rw [List.cons_append]
          refine ⟨hsys, ?_⟩
          intro x hx
          rcases List.mem_append.mp hx with hx1 | hx1
          · exact hrest x hx1
          · simp only [List.mem_singleton] at hx1
            subst hx1
            exact toRole_user_or_assistant r

/-- Truncation at the default cap preserves the history invariant. -/
theorem histInv_truncate (h : List Msg) (hinv : HistInv h) :
    HistInv (truncate_if_needed h MAX_MESSAGES_PER_CHARACTER).1 := by
  by_cases hle : h.length ≤ MAX_MESSAGES_PER_CHARACTER
  · rw [truncate_eq_of_le h _ hle]
    exact hinv
  · obtain ⟨hch, hhd⟩ := hinv
    cases h with
    | nil => exact hhd.elim
    | cons m rest =>
      obtain ⟨hsys, hrest⟩ := hhd
      have h100 : MAX_MESSAGES_PER_CHARACTER < rest.length + 1 := by
        simp only [List.length_cons] at hle
        omega
      rw [show MAX_MESSAGES_PER_CHARACTER = 100 from rfl] at h100 ⊢
      rw [truncate_eq_of_gt 100 m rest (by omega) h100]
      constructor
      · refine List.chain'_cons'.mpr ⟨?_, (hch.tail).drop _⟩
        intro y hy
        have hym : y ∈ rest :=
          List.mem_of_mem_drop (List.mem_of_mem_head? hy)
        rcases hrest y hym with h1 | h1 <;>
          simp [RolesDiffer, hsys, h1]
      · exact ⟨hsys, fun x hx => hrest x (List.mem_of_mem_drop hx)⟩

/-- Any sequence of `add_chat_message_delta` calls preserves the history
invariant. -/
theorem histInv_applyDeltas (deltas : List (String × DeltaRole)) (h : List Msg)
    (hinv : HistInv h) : HistInv (applyDeltas h deltas) := by
  induction deltas generalizing h with
  | nil => exact hinv
  | cons d ds ih =>
    exact ih _ (histInv_truncate _ (histInv_addDeltaCore h d.1 d.2 hinv))

/-- C5: for every sequence of `add_chat_message_delta` calls with roles drawn
from user/assistant and no expected-index rejection, the resulting history never
contains two adjacent messages with the same role (a differing-role delta starts
a new message, a same-role delta is merged into the last one); and the claim's
example — deltas `("Hi", user)`, `(" there", user)`, `("Hello", assistant)` —
yields exactly the two messages `{user: "Hi there"}`, `{assistant: "Hello"}`,
with one separating space inserted exactly because the boundary lacked
whitespace on both sides. -/
theorem c5_role_merge :
    (∀ (prompt : String) (deltas : List (String × DeltaRole)),
      (applyDeltas [⟨"system", prompt⟩] deltas).Chain' RolesDiffer)
    ∧ applyDeltas [] [("Hi", .user), (" there", .user), ("Hello", .assistant)]
        = [⟨"user", "Hi there"⟩, ⟨"assistant", "Hello"⟩] := by
  constructor
  · intro prompt deltas
    refine (histInv_applyDeltas deltas [⟨"system", prompt⟩] ?_).1
    exact ⟨List.chain'_singleton _, rfl, by simp⟩
  · decide

/-- C2: when tool calls are detected (with tools declared and a prompt generator
bound), `chat_completion` executes the assembled tool calls in ascending
stream-index order — the executed list is the buffer sorted by stream index, a
permutation of the assembled buffer — and then performs exactly one re-query of
the upstream, which carries no tool declarations, so no second round of tool
invocation can be triggered within the same turn. -/
theorem c2_single_requery_and_order :
    ∀ (chunks : List Chunk) (finalChunks : List (Option String)),
      (streamFold true true chunks).detected = true →
      (chat_completion true true chunks finalChunks).requeries = [false]
      ∧ (chat_completion true true chunks finalChunks).executed
          = (sortedToolCalls (streamFold true true chunks).buffer).map
              (fun p => (p.2.name, p.2.arguments))
      ∧ List.Sorted keyLe (sortedToolCalls (streamFold true true chunks).buffer)
      ∧ (sortedToolCalls (streamFold true true chunks).buffer).Perm
          (streamFold true true chunks).buffer := by
  intro chunks finalChunks hdet
  refine ⟨?_, ?_, ?_, ?_⟩
  · simp [chat_completion, hdet]
  · simp [chat_completion, hdet]
  · unfold sortedToolCalls
    exact List.sorted_insertionSort keyLe _
  · unfold sortedToolCalls
    exact List.perm_insertionSort keyLe _

/-- C2 witness: a stream whose single chunk carries two tool-call deltas with
stream indices 1 and 0; the calls are executed in index order 0, 1 and exactly
one tool-free re-query is issued. -/
theorem c2_single_requery_and_order_witness :
    (streamFold true true
        [⟨[⟨1, some "id1", some "g", some "ay"⟩,
           ⟨0, some "id0", some "f", some "ax"⟩], none⟩]).detected = true
    ∧ (chat_completion true true
        [⟨[⟨1, some "id1", some "g", some "ay"⟩,
           ⟨0, some "id0", some "f", some "ax"⟩], none⟩] []).requeries = [false]
    ∧ (chat_completion true true
        [⟨[⟨1, some "id1", some "g", some "ay"⟩,
           ⟨0, some "id0", some "f", some "ax"⟩], none⟩] []).executed
      = [("f", "ax"), ("g", "ay")] :=
  ⟨by decide,
   (c2_single_requery_and_order
      [⟨[⟨1, some "id1", some "g", some "ay"⟩,
         ⟨0, some "id0", some "f", some "ax"⟩], none⟩] [] (by decide)).1,
   by decide⟩

end AudioGame
